import Mathlib

/-!
# AlphasineAssistant — verification of the agent orchestration core

Shallow embedding of the agent step logic of the AlphasineAssistant Chrome
extension:

* `NavigatorAgent.execute`, `NavigatorAgent.addStateMessageToMemory`,
  `NavigatorAgent.removeLastStateMessageFromMemory` and
  `NavigatorAgent.doMultiAction` (navigator source file, lines 215-461);
* `PlannerAgent.execute` and `plannerOutputSchema` (planner.ts);
* `ValidatorAgent.execute` and `validatorOutputSchema` (validator.ts);
* `createFavoritesStorage().addPrompt` (packages/storage/lib/chat/types.ts).

External collaborators (the LLM transport, the browser DOM, the settings
store) are supplied as oracle inputs: the outcome of each external call is a
parameter of the embedded function, and the embedded control flow is the
translation of the source.  Exceptions are modelled with explicit error
values (`Err`), and the paused/stopped flags, which are mutated externally
between suspension points, are modelled as the boolean value observed at each
of the checkpoints of the source.

The duplicated line 250 of the navigator source
(`if (this.context.paused || this.context.stopped) {` appears twice in a row)
repeats an identical condition; it is embedded as the single equivalent
check.
-/

namespace AlphasineAssistant

/-- Modelled from the spec: `ActionResult` (types.ts is not under src/).
Spec section 3: ActionResult is {extractedContent?, error?, isDone?,
includeInMemory}; `new ActionResult()` is the empty instance. -/

structure ActionResult where
  extractedContent : Option String := none
  error : Option String := none
  isDone : Bool := false
  includeInMemory : Bool := false

deriving instance DecidableEq, Repr for ActionResult

/-- The empty `ActionResult` instance, `new ActionResult()`. -/

def ActionResult.empty : ActionResult := {}

/-- A conversational memory entry.  Only the distinction between the
transient browser-state snapshot message and every other message matters to
the verified properties, so the content of ordinary messages is kept as a
plain string. -/

inductive Msg where
  | plain (content : String)
  | modelOut (content : String)
  | state

deriving instance DecidableEq, Repr for Msg

/-- Whether a memory entry is the transient state snapshot. -/

def Msg.isState : Msg → Bool
  | .state => true
  | _ => false

/-- Number of transient state messages in a history. -/

def countState (ms : List Msg) : Nat := (ms.filter Msg.isState).length

/-- Remove the first state message of a history, if any. -/

def removeFirstState : List Msg → List Msg
  | [] => []
  | Msg.state :: rest => rest
  | m :: rest => m :: removeFirstState rest

/-- Modelled from the spec: `MessageManager.removeLastStateMessage`
(MessageManager is not under src/; spec section 4.1 says it removes the
transient state snapshot).  Removes the last state message of the history. -/

def removeLastStateMsg (ms : List Msg) : List Msg :=
  (removeFirstState ms.reverse).reverse

/-- The shared `TaskContext` fields read and written by the navigator step:
the `stateMessageAdded` guard, the shared action-result buffer and the
conversational memory held by the MessageManager. -/

structure Context where
  stateMessageAdded : Bool
  actionResults : List ActionResult
  messages : List Msg

deriving instance DecidableEq, Repr for Context

/-- Execution-state events emitted to the event sink. -/

inductive Event where
  | stepStart
  | stepOk
  | stepCancel
  | stepFail (message : String)
  | actFail (message : String)

deriving instance DecidableEq, Repr for Event

/-- The classification of a thrown error, as distinguished by the catch
blocks of the agents: `isAuthenticationError`, `isForbiddenError`,
`isAbortedError`, `instanceof URLNotAllowedError`, and everything else. -/

inductive ErrKind where
  | auth
  | forbidden
  | aborted
  | urlNotAllowed
  | generic

deriving instance DecidableEq, Repr for ErrKind

/-- A thrown error: its classification together with its message. -/

structure Err where
  kind : ErrKind
  msg : String

deriving instance DecidableEq, Repr for Err

/-- `AgentOutput<T>` of types.ts: {id, result?, error?}. -/

structure AgentOutput (α : Type) where
  id : String
  result : Option α := none
  error : Option String := none

deriving instance DecidableEq, Repr for AgentOutput

/-- Whether exactly one of the `result` and `error` fields is present. -/

def exactlyOneB {α : Type} (out : AgentOutput α) : Bool :=
  (out.result.isSome && out.error.isNone) || (out.result.isNone && out.error.isSome)

/-- How an agent step concludes towards its caller: a returned
`AgentOutput`, or a propagated (re-thrown) error. -/

inductive StepReturn (α : Type) where
  | returned (out : AgentOutput α)
  | threw (e : Err)

deriving instance DecidableEq, Repr for StepReturn

/-- The last line of an error text: `error.toString().trim()` followed by
`trim`, then split on the newline and take the last piece (navigator source, lines 313-317). -/

def lastLine (e : String) : String := (e.trim.splitOn "\n").getLastD ""

/-- The memory entries added for one action result by
`addStateMessageToMemory` (navigator source, lines 306-322): an
`Action result:` message when `extractedContent` is truthy and an
`Action error:` message holding the last line of the error when `error` is
truthy.  The empty string is falsy in the source, hence the emptiness
checks. -/

def resultMemoryMessages (r : ActionResult) : List Msg :=
  (match r.extractedContent with
   | some c => if c = "" then [] else [Msg.plain ("Action result: " ++ c)]
   | none => []) ++
  (match r.error with
   | some e => if e = "" then [] else [Msg.plain ("Action error: " ++ lastLine e)]
   | none => [])

/-- The per-slot reset of `addStateMessageToMemory` (navigator source, line
325): a result destined for memory is replaced by the empty instance. -/

def resetIfIncluded (r : ActionResult) : ActionResult :=
  if r.includeInMemory then ActionResult.empty else r

/-- `NavigatorAgent.addStateMessageToMemory` (navigator source, lines
296-334).  If the state message was already added, do nothing.  Otherwise
fold every `includeInMemory` action result into memory, reset each such
buffer slot to the empty instance, append the transient state snapshot and
set the guard. -/

def addStateMessageToMemory (ctx : Context) : Context :=
  if ctx.stateMessageAdded then ctx
  else
    let memMsgs :=
      (ctx.actionResults.map
        (fun r => if r.includeInMemory then resultMemoryMessages r else [])).flatten
    { stateMessageAdded := true
      actionResults := ctx.actionResults.map resetIfIncluded
      messages := (ctx.messages ++ memMsgs) ++ [Msg.state] }

/-- `NavigatorAgent.removeLastStateMessageFromMemory` (navigator source,
lines 339-344): a no-op unless `stateMessageAdded` is set; otherwise remove
the last state message and clear the guard. -/

def removeLastStateMessageFromMemory (ctx : Context) : Context :=
  if ctx.stateMessageAdded then
    { ctx with messages := removeLastStateMsg ctx.messages, stateMessageAdded := false }
  else ctx

/-- `NavigatorAgent.addModelOutputToMemory` (navigator source, lines
346-349).  Modelled from the spec for the MessageManager side (section 4.1):
`addModelOutput` re-serializes the structured decision back into history; it
adds one non-state message. -/

def addModelOutputToMemory (ctx : Context) : Context :=
  { ctx with messages := ctx.messages ++ [Msg.modelOut "model output"] }

/-- The outcome of `actionInstance.call(actionArgs)` for one resolved
action, as an oracle: a returned `ActionResult`, a thrown
`URLNotAllowedError`, or a failure (a thrown generic error, or the
`Action ... returned undefined` case, both of which raise a generic error
with a message inside the try block). -/

inductive ActionOutcome where
  | ok (r : ActionResult)
  | urlNotAllowed (message : String)
  | fail (message : String)

deriving instance DecidableEq, Repr for ActionOutcome

/-- One entry of the normalized action list, bundling what the loop body
observes about it: the action name, whether the registry resolves it,
whether `getIndexArg` returns a non-null target-element index, the branch
path hash set that `calcBranchPathHashSet` would return if recomputed right
before this action, and the outcome of executing it. -/

structure ActionSpec where
  name : String
  registered : Bool
  hasIndexArg : Bool
  recomputed : List String
  outcome : ActionOutcome

deriving instance DecidableEq, Repr for ActionSpec

/-- `Set.isSubsetOf`: every element of `a` is an element of `b`. -/

def subsetOf (a b : List String) : Bool := a.all (fun x => b.contains x)

/-- The message of the fatal per-step error-budget failure (navigator
source, line 449). -/

def tooManyErrorsMsg : String := "Too many errors in actions"

/-- The informational drift message (navigator source, line 411). -/

def infoMsg (i total : Nat) : String :=
  "Something new appeared after action " ++ toString i ++ " / " ++ toString total

/-- The non-fatal per-action error result (navigator source, lines
451-457). -/

def errResult (message : String) : ActionResult :=
  { error := some message, isDone := false, includeInMemory := true }

/-- The informational drift result (navigator source, lines 413-418):
`extractedContent` set, `includeInMemory` set, no error field. -/

def infoResult (i total : Nat) : ActionResult :=
  { extractedContent := some (infoMsg i total), includeInMemory := true }

/-- What the action loop produces: the accumulated results, the emitted
ACT_FAIL events, the number of `actionInstance.call` invocations, and the
propagated error when the loop threw instead of returning. -/

structure LoopOut where
  results : List ActionResult
  events : List Event
  calls : Nat
  thrown : Option Err

deriving instance DecidableEq, Repr for LoopOut

/-- The `for (const [i, action] of actions.entries())` loop of
`NavigatorAgent.doMultiAction` (navigator source, lines 391-459).
Arguments after the normalized action list: the running index `i`, the
error counter `errCount`, the accumulated results, the accumulated events
and the call count.  `flagStart i` is the paused-or-stopped value observed
at the top of iteration `i` (line 396) and `flagEnd i` the value observed
after the action result is pushed (line 429).  An unresolved action name
and a failed call both take the catch path (lines 434-458): emit ACT_FAIL,
increment the counter, throw the fatal budget error if the counter exceeds
3, and otherwise record a non-fatal error result.  A thrown
`URLNotAllowedError` is re-thrown before the counter is touched. -/

def actionLoop (flagStart flagEnd : Nat → Bool) (cached : List String) (total : Nat) :
    List ActionSpec → Nat → Nat → List ActionResult → List Event → Nat → LoopOut
  | [], _i, _c, rs, evs, calls => ⟨rs, evs, calls, none⟩
  | spec :: rest, i, c, rs, evs, calls =>
    if flagStart i then ⟨rs, evs, calls, none⟩
    else if spec.registered = false then
      let m := "Action " ++ spec.name ++ " not exists"
      let evs1 := evs ++ [Event.actFail m]
      if c + 1 > 3 then ⟨rs, evs1, calls, some ⟨ErrKind.generic, tooManyErrorsMsg⟩⟩
      else actionLoop flagStart flagEnd cached total rest (i + 1) (c + 1)
        (rs ++ [errResult m]) evs1 calls
    else if 0 < i ∧ spec.hasIndexArg = true ∧ subsetOf spec.recomputed cached = false then
      ⟨rs ++ [infoResult i total], evs, calls, none⟩
    else
      match spec.outcome with
      | ActionOutcome.ok r =>
        if flagEnd i then ⟨rs ++ [r], evs, calls + 1, none⟩
        else actionLoop flagStart flagEnd cached total rest (i + 1) c (rs ++ [r]) evs (calls + 1)
      | ActionOutcome.urlNotAllowed m =>
        ⟨rs, evs, calls + 1, some ⟨ErrKind.urlNotAllowed, m⟩⟩
      | ActionOutcome.fail m =>
        let evs1 := evs ++ [Event.actFail m]
        if c + 1 > 3 then ⟨rs, evs1, calls + 1, some ⟨ErrKind.generic, tooManyErrorsMsg⟩⟩
        else actionLoop flagStart flagEnd cached total rest (i + 1) (c + 1)
          (rs ++ [errResult m]) evs1 (calls + 1)

/-- The model output consumed by `doMultiAction`.  The source also accepts
a JSON-string encoding and a single bare object for `response.action`
(navigator source, lines 357-383); those forms normalize to the same
ordered list, and the embedding takes the array form, keeping the filter of
null entries of line 360. -/

structure NavModelOutput where
  action : List (Option ActionSpec)

deriving instance DecidableEq, Repr for NavModelOutput

/-- `NavigatorAgent.doMultiAction` (navigator source, lines 351-461):
normalize the action list, capture the pre-step branch path hash set
(`cached`, the oracle value of `calcBranchPathHashSet` at line 387), and
run the action loop with fresh accumulators. -/

def doMultiAction (flagStart flagEnd : Nat → Bool) (cached : List String)
    (resp : NavModelOutput) : LoopOut :=
  let actions := resp.action.filterMap id
  actionLoop flagStart flagEnd cached actions.length actions 0 0 [] [] 0

/-- `NavigatorResult` of the navigator source, lines 63-65. -/

structure NavigatorResult where
  done : Bool

deriving instance DecidableEq, Repr for NavigatorResult

/-- The oracle environment of one navigator step: the paused-or-stopped
values observed at the three checks of `execute` (lines 226, 234 and
249-250), the per-iteration flag observations inside `doMultiAction`, the
outcome of `invoke`, and the pre-step branch path hash set. -/

structure NavEnv where
  flag0 : Bool
  flag1 : Bool
  flag2 : Bool
  flagStart : Nat → Bool
  flagEnd : Nat → Bool
  invokeOut : Except Err NavModelOutput
  cached : List String

/-- What one navigator step leaves behind: the return-or-throw outcome, the
final context, the emitted events, the `cancelled` local, and the number of
executed actions. -/

structure ExecOutcome where
  result : StepReturn NavigatorResult
  ctx : Context
  events : List Event
  cancelled : Bool
  callCount : Nat

/-- The auth error message of the navigator catch block (line 266). -/

def navAuthErrorMsg : String :=
  "Navigator API Authentication failed. Please verify your API key"

/-- Modelled from the spec: the `LLM_FORBIDDEN_ERROR_MESSAGE` constant of
errors.ts is not under src/; its concrete text is irrelevant to the claims
and it is kept abstract as a fixed string. -/

def llmForbiddenErrorMsg : String := "LLM_FORBIDDEN_ERROR_MESSAGE"

/-- `NavigatorAgent.execute` (navigator source, lines 215-291).  The step:
emit STEP_START, add the state message, check paused/stopped, invoke the
model, check again, roll back the state message, commit the model output,
run `doMultiAction`, store its results in the context, check again, and
report.  The catch block rolls back the state message and classifies the
error; the finally block rolls back and emits STEP_CANCEL when the step was
cancelled. -/

def navigatorExecute (env : NavEnv) (ctx0 : Context) : ExecOutcome :=
  let evs0 := [Event.stepStart]
  let ctx1 := addStateMessageToMemory ctx0
  if env.flag0 then
    ⟨StepReturn.returned ⟨"navigator", none, none⟩, removeLastStateMessageFromMemory ctx1,
      evs0 ++ [Event.stepCancel], true, 0⟩
  else
    match env.invokeOut with
    | Except.error e =>
      let ctx2 := removeLastStateMessageFromMemory ctx1
      match e.kind with
      | ErrKind.auth =>
        ⟨StepReturn.threw ⟨ErrKind.auth, navAuthErrorMsg⟩, ctx2, evs0, false, 0⟩
      | ErrKind.forbidden =>
        ⟨StepReturn.threw ⟨ErrKind.forbidden, llmForbiddenErrorMsg⟩, ctx2, evs0, false, 0⟩
      | ErrKind.aborted =>
        ⟨StepReturn.threw ⟨ErrKind.aborted, e.msg⟩, ctx2, evs0, false, 0⟩
      | ErrKind.urlNotAllowed =>
        ⟨StepReturn.threw e, ctx2, evs0, false, 0⟩
      | ErrKind.generic =>
        ⟨StepReturn.returned ⟨"navigator", none, some e.msg⟩, ctx2,
          evs0 ++ [Event.stepFail ("Navigation failed: " ++ e.msg)], false, 0⟩
    | Except.ok resp =>
      if env.flag1 then
        ⟨StepReturn.returned ⟨"navigator", none, none⟩, removeLastStateMessageFromMemory ctx1,
          evs0 ++ [Event.stepCancel], true, 0⟩
      else
        let ctx3 := addModelOutputToMemory (removeLastStateMessageFromMemory ctx1)
        let lo := doMultiAction env.flagStart env.flagEnd env.cached resp
        match lo.thrown with
        | some e =>
          let ctx4 := removeLastStateMessageFromMemory ctx3
          match e.kind with
          | ErrKind.auth =>
            ⟨StepReturn.threw ⟨ErrKind.auth, navAuthErrorMsg⟩, ctx4, evs0 ++ lo.events, false, lo.calls⟩
          | ErrKind.forbidden =>
            ⟨StepReturn.threw ⟨ErrKind.forbidden, llmForbiddenErrorMsg⟩, ctx4, evs0 ++ lo.events, false, lo.calls⟩
          | ErrKind.aborted =>
            ⟨StepReturn.threw ⟨ErrKind.aborted, e.msg⟩, ctx4, evs0 ++ lo.events, false, lo.calls⟩
          | ErrKind.urlNotAllowed =>
            ⟨StepReturn.threw e, ctx4, evs0 ++ lo.events, false, lo.calls⟩
          | ErrKind.generic =>
            ⟨StepReturn.returned ⟨"navigator", none, some e.msg⟩, ctx4,
              evs0 ++ lo.events ++ [Event.stepFail ("Navigation failed: " ++ e.msg)], false, lo.calls⟩
        | none =>
          let ctx4 := { ctx3 with actionResults := lo.results }
          if env.flag2 then
            ⟨StepReturn.returned ⟨"navigator", none, none⟩, removeLastStateMessageFromMemory ctx4,
              evs0 ++ lo.events ++ [Event.stepCancel], true, lo.calls⟩
          else
            let done := match lo.results.getLast? with
              | some r => r.isDone
              | none => false
            ⟨StepReturn.returned ⟨"navigator", some ⟨done⟩, none⟩, ctx4,
              evs0 ++ lo.events ++ [Event.stepOk], false, lo.calls⟩

/-- The boolean-or-string union member shared by the `done` and `web_task`
fields of `plannerOutputSchema` (planner.ts, lines 23-30 and 33-40) and the
`is_valid` field of `validatorOutputSchema` (validator.ts, lines 21-27):
`z.union([z.boolean(), z.string().transform(...)])` where the transform
maps a string to `true` when its lowercase form is `"true"`, to `false`
when it is `"false"`, and otherwise throws `Invalid boolean string`, which
makes schema validation fail. -/

inductive BoolLike where
  | bool (b : Bool)
  | str (s : String)

deriving instance DecidableEq, Repr for BoolLike

/-- `val.toLowerCase()` of JavaScript, modelled per character (identical to
the `String.toLower` of Lean, written over the character list so that it
evaluates by kernel reduction). -/

def toLowerCase (s : String) : String := ⟨s.data.map Char.toLower⟩

/-- The normalization of a boolean-like schema value (planner.ts lines
23-30; validator.ts lines 21-27). -/

def parseBoolLike : BoolLike → Except String Bool
  | BoolLike.bool b => Except.ok b
  | BoolLike.str s =>
    if toLowerCase s = "true" then Except.ok true
    else if toLowerCase s = "false" then Except.ok false
    else Except.error "Invalid boolean string"

/-- Whether a schema parse succeeded. -/

def parseOk (e : Except String Bool) : Bool :=
  match e with
  | Except.ok _ => true
  | Except.error _ => false

/-- `PlannerOutput` (planner.ts, lines 20-43), after schema validation. -/

structure PlannerOutput where
  observation : String
  challenges : String
  done : Bool
  next_steps : String
  reasoning : String
  web_task : Bool

deriving instance DecidableEq, Repr for PlannerOutput

/-- `PlannerAgent.execute` (planner.ts, lines 61-131).  The prompt
assembly (lines 66-98) only shapes the messages sent to the model and is
absorbed into the invoke oracle; the oracle yields the validated model
output (`none` when `invoke` resolved but produced nothing, which the
source turns into `Failed to validate planner output`), or a thrown error.
Auth, forbidden and aborted errors are reclassified and re-thrown; every
other error is returned as a non-fatal `AgentOutput.error`. -/

def plannerExecute (invokeOut : Except Err (Option PlannerOutput)) :
    StepReturn PlannerOutput × List Event :=
  match invokeOut with
  | Except.ok (some out) =>
    (StepReturn.returned ⟨"planner", some out, none⟩, [Event.stepStart, Event.stepOk])
  | Except.ok none =>
    (StepReturn.returned ⟨"planner", none, some "Failed to validate planner output"⟩,
      [Event.stepStart, Event.stepFail "Planning failed: Failed to validate planner output"])
  | Except.error e =>
    match e.kind with
    | ErrKind.auth =>
      (StepReturn.threw ⟨ErrKind.auth, "Planner API Authentication failed. Please verify your API key"⟩,
        [Event.stepStart])
    | ErrKind.forbidden =>
      (StepReturn.threw ⟨ErrKind.forbidden, llmForbiddenErrorMsg⟩, [Event.stepStart])
    | ErrKind.aborted =>
      (StepReturn.threw ⟨ErrKind.aborted, e.msg⟩, [Event.stepStart])
    | ErrKind.urlNotAllowed =>
      (StepReturn.returned ⟨"planner", none, some e.msg⟩,
        [Event.stepStart, Event.stepFail ("Planning failed: " ++ e.msg)])
    | ErrKind.generic =>
      (StepReturn.returned ⟨"planner", none, some e.msg⟩,
        [Event.stepStart, Event.stepFail ("Planning failed: " ++ e.msg)])

/-- `ValidatorOutput` (validator.ts, lines 20-33), after schema
validation. -/

structure ValidatorOutput where
  is_valid : Bool
  reason : String
  answer : String

deriving instance DecidableEq, Repr for ValidatorOutput

/-- `ValidatorAgent.execute` (validator.ts, lines 64-142).  The message
assembly (lines 70-101) is absorbed into the invoke oracle.  On an invalid
verdict a synthetic `ActionResult` carrying the rejection reason replaces
the shared result buffer; auth, forbidden and aborted errors are
reclassified and re-thrown; every other error is returned as
`Validation failed: ...` in `AgentOutput.error`. -/

def validatorExecute (invokeOut : Except Err (Option ValidatorOutput)) (ctx : Context) :
    StepReturn ValidatorOutput × Context × List Event :=
  match invokeOut with
  | Except.ok (some out) =>
    if out.is_valid = false then
      let msg := "The answer is not yet correct. " ++ out.reason ++ "."
      (StepReturn.returned ⟨"validator", some out, none⟩,
        { ctx with actionResults := [{ extractedContent := some msg, includeInMemory := true }] },
        [Event.stepStart, Event.stepFail msg])
    else
      (StepReturn.returned ⟨"validator", some out, none⟩, ctx, [Event.stepStart, Event.stepOk])
  | Except.ok none =>
    (StepReturn.returned ⟨"validator", none, some "Validation failed: Failed to validate task result"⟩,
      ctx, [Event.stepStart, Event.stepFail "Validation failed: Failed to validate task result"])
  | Except.error e =>
    match e.kind with
    | ErrKind.auth =>
      (StepReturn.threw ⟨ErrKind.auth, "Validator API Authentication failed. Please verify your API key"⟩,
        ctx, [Event.stepStart])
    | ErrKind.forbidden =>
      (StepReturn.threw ⟨ErrKind.forbidden, llmForbiddenErrorMsg⟩, ctx, [Event.stepStart])
    | ErrKind.aborted =>
      (StepReturn.threw ⟨ErrKind.aborted, e.msg⟩, ctx, [Event.stepStart])
    | ErrKind.urlNotAllowed =>
      (StepReturn.returned ⟨"validator", none, some ("Validation failed: " ++ e.msg)⟩,
        ctx, [Event.stepStart, Event.stepFail ("Validation failed: " ++ e.msg)])
    | ErrKind.generic =>
      (StepReturn.returned ⟨"validator", none, some ("Validation failed: " ++ e.msg)⟩,
        ctx, [Event.stepStart, Event.stepFail ("Validation failed: " ++ e.msg)])

/-- `FavoritePrompt` (packages/storage/lib/chat/types.ts, lines 89-93). -/

structure FavoritePrompt where
  id : Nat
  title : String
  content : String

deriving instance DecidableEq, Repr for FavoritePrompt

/-- `FavoritesStorage` (packages/storage/lib/chat/types.ts, lines
96-99). -/

structure FavoritesStorage where
  nextId : Nat
  prompts : List FavoritePrompt

deriving instance DecidableEq, Repr for FavoritesStorage

/-- `createFavoritesStorage().addPrompt` (packages/storage/lib/chat/types.ts,
lines 129-151).  If a stored prompt already has exactly the given content,
return it and leave the storage unchanged; otherwise prepend a new prompt
whose id is `nextId`, increment `nextId`, and return `prompts[0]` of the
updated state (the list is nonempty by construction, so the `headD` default
is never used). -/

def addPrompt (st : FavoritesStorage) (title content : String) :
    FavoritesStorage × FavoritePrompt :=
  match st.prompts.find? (fun p => p.content == content) with
  | some existingPrompt => (st, existingPrompt)
  | none =>
    let newPrompt : FavoritePrompt := { id := st.nextId, title := title, content := content }
    let st1 : FavoritesStorage := { nextId := st.nextId + 1, prompts := newPrompt :: st.prompts }
    (st1, st1.prompts.headD newPrompt)

/-- Concrete navigator step inputs for the C1 witness: a successful step
with one model action. -/

def c1Ctx : Context :=
  { stateMessageAdded := false, actionResults := [], messages := [Msg.plain "task"] }

def c1Spec : ActionSpec :=
  { name := "done_action", registered := true, hasIndexArg := false, recomputed := [],
    outcome := ActionOutcome.ok { isDone := true } }

def c1Env : NavEnv :=
  { flag0 := false, flag1 := false, flag2 := false,
    flagStart := fun _ => false, flagEnd := fun _ => false,
    invokeOut := Except.ok ⟨[some c1Spec]⟩, cached := [] }

/-- Whether an event is an ACT_FAIL emission. -/

def Event.isActFail : Event → Bool
  | .actFail _ => true
  | _ => false

/-- Number of ACT_FAIL events, one per caught per-action error. -/

def actFailCount (evs : List Event) : Nat := (evs.filter Event.isActFail).length

/-- Number of error-bearing results in an accumulated result list. -/

def errResCount (rs : List ActionResult) : Nat :=
  (rs.filter (fun r => r.error.isSome)).length

/-- Whether a successful call outcome carries no error field.  The concrete
Action implementations are external to the orchestration core; this
side condition states that an action that returns normally does not itself
carry an error field, which is how every error-bearing result of the loop
comes from the catch path. -/

def outcomeErrFree : ActionOutcome → Bool
  | ActionOutcome.ok r => r.error.isNone
  | _ => true

/-- `outcomeErrFree` for every entry of a normalized action list. -/

def okErrFree (specs : List ActionSpec) : Bool :=
  specs.all (fun s => outcomeErrFree s.outcome)

/-- The budget invariant of the action loop output: a run that returns has
at most 3 caught errors, each recorded as an error-bearing result; a thrown
`URLNotAllowedError` leaves the counts equally balanced and under budget;
any other throw is the fatal budget error, raised at the moment of the
fourth caught error with exactly 3 error-bearing results recorded and the
fourth error visible as the last ACT_FAIL event. -/

def loopBudgetInv (lo : LoopOut) : Prop :=
  (lo.thrown = none →
    actFailCount lo.events ≤ 3 ∧ errResCount lo.results = actFailCount lo.events) ∧
  (∀ e, lo.thrown = some e → e.kind = ErrKind.urlNotAllowed →
    actFailCount lo.events ≤ 3 ∧ errResCount lo.results = actFailCount lo.events) ∧
  (∀ e, lo.thrown = some e → e.kind ≠ ErrKind.urlNotAllowed →
    e = ⟨ErrKind.generic, tooManyErrorsMsg⟩ ∧ actFailCount lo.events = 4 ∧
    errResCount lo.results = 3 ∧ ∃ m, lo.events.getLast? = some (Event.actFail m))

/-- Fail-action entry used by the C2 witness. -/

def c2Fail (m : String) : ActionSpec :=
  { name := "act", registered := true, hasIndexArg := false, recomputed := [],
    outcome := ActionOutcome.fail m }

/-- Ok-action entry used by the C2 witness. -/

def c2Ok : ActionSpec :=
  { name := "act", registered := true, hasIndexArg := false, recomputed := [],
    outcome := ActionOutcome.ok { extractedContent := some "done" } }

/-- A step with 4 failing actions (C2 witness). -/

def c2Resp4 : NavModelOutput :=
  ⟨[some (c2Fail "e1"), some (c2Fail "e2"), some (c2Fail "e3"), some (c2Fail "e4")]⟩

/-- A step with 3 failing actions and one succeeding action (C2 witness). -/

def c2Resp3 : NavModelOutput :=
  ⟨[some (c2Fail "e1"), some (c2Fail "e2"), some (c2Fail "e3"), some c2Ok]⟩

/-- Fail-action entry used by C9. -/

def c9Fail (m : String) : ActionSpec :=
  { name := "act", registered := true, hasIndexArg := false, recomputed := [],
    outcome := ActionOutcome.fail m }

/-- A step with 4 failing actions carrying distinct error messages (C9). -/

def c9Resp : NavModelOutput :=
  ⟨[some (c9Fail "boom1"), some (c9Fail "boom2"), some (c9Fail "boom3"),
    some (c9Fail "boom4")]⟩

/-- Drift-action entry used by the C3 witness: the recomputed hash set
holds an element absent from the pre-step set `["h1"]`. -/

def c3Drift : ActionSpec :=
  { name := "click", registered := true, hasIndexArg := true, recomputed := ["h1", "h2"],
    outcome := ActionOutcome.ok {} }

/-- Trailing action used by the C3 witness; it must not execute. -/

def c3Tail : ActionSpec :=
  { name := "extract", registered := true, hasIndexArg := false, recomputed := [],
    outcome := ActionOutcome.ok { extractedContent := some "text" } }

/-- Disallowed-navigation action entry used by the C4 witness. -/

def c4Url : ActionSpec :=
  { name := "go_to_url", registered := true, hasIndexArg := false, recomputed := [],
    outcome := ActionOutcome.urlNotAllowed "URL not allowed: evil.example" }

/-- Navigator environment used by the C4 witness. -/

def c4Env : NavEnv :=
  { flag0 := false, flag1 := false, flag2 := false,
    flagStart := fun _ => false, flagEnd := fun _ => false,
    invokeOut := Except.ok ⟨[some c4Url]⟩, cached := [] }

/-- Cancellation environment for the C5 counterexample: the paused/stopped
flag is observed set at the first check of the navigator step. -/

def c5CancelEnv : NavEnv :=
  { flag0 := true, flag1 := false, flag2 := false,
    flagStart := fun _ => false, flagEnd := fun _ => false,
    invokeOut := Except.error ⟨ErrKind.generic, "unused"⟩, cached := [] }

/-- Context for the C5 counterexample and witness. -/

def c5Ctx : Context := { stateMessageAdded := false, actionResults := [], messages := [] }

/-- Planner output used by the C5 witness. -/

def c5PO : PlannerOutput :=
  { observation := "o", challenges := "c", done := false, next_steps := "n",
    reasoning := "r", web_task := true }

/-- Validator output used by the C5 witness. -/

def c5VO : ValidatorOutput := { is_valid := true, reason := "", answer := "42" }

/-- Successful navigator environment used by the C5 witness. -/

def c5OkEnv : NavEnv :=
  { flag0 := false, flag1 := false, flag2 := false,
    flagStart := fun _ => false, flagEnd := fun _ => false,
    invokeOut := Except.ok ⟨[]⟩, cached := [] }

/-- Navigator environment for C7: the paused/stopped flag is observed set
at the check before model invocation. -/

def c7Env : NavEnv :=
  { flag0 := true, flag1 := false, flag2 := false,
    flagStart := fun _ => false, flagEnd := fun _ => false,
    invokeOut := Except.error ⟨ErrKind.generic, "unused"⟩, cached := [] }

/-- Context for C7: the shared buffer holds one `includeInMemory` result. -/

def c7Ctx : Context :=
  { stateMessageAdded := false,
    actionResults := [{ extractedContent := some "x", includeInMemory := true }],
    messages := [] }

/-- Context for the C8 witness. -/

def c8Ctx : Context :=
  { stateMessageAdded := false,
    actionResults := [{ extractedContent := some "page text", includeInMemory := true }],
    messages := [] }

/-- Stored favorites state used by the C10 witness. -/

def c10St : FavoritesStorage := { nextId := 5, prompts := [{ id := 2, title := "t", content := "c" }] }

/-! ## Counting lemmas for the transient state message -/

theorem countState_nil : countState [] = 0 := rfl

theorem countState_cons (m : Msg) (ms : List Msg) :
    countState (m :: ms) = (if m.isState then 1 else 0) + countState ms := by
  cases m <;> simp [countState, Msg.isState, List.filter_cons, Nat.add_comm]

theorem countState_append (a b : List Msg) :
    countState (a ++ b) = countState a + countState b := by
  simp [countState, List.filter_append]

theorem countState_reverse (ms : List Msg) : countState ms.reverse = countState ms := by
  induction ms with
  | nil => rfl
  | cons m rest ih =>
    cases m <;>
      simp [List.reverse_cons, countState_append, countState_cons, countState_nil,
        Msg.isState, ih, Nat.add_comm]

theorem countState_removeFirstState (ms : List Msg) :
    countState (removeFirstState ms) = countState ms - 1 := by
  induction ms with
  | nil => rfl
  | cons m rest ih =>
    cases m <;> simp [removeFirstState, countState_cons, Msg.isState, ih]

theorem countState_removeLastStateMsg (ms : List Msg) :
    countState (removeLastStateMsg ms) = countState ms - 1 := by
  unfold removeLastStateMsg
  rw [countState_reverse, countState_removeFirstState, countState_reverse]

theorem countState_resultMemoryMessages (r : ActionResult) :
    countState (resultMemoryMessages r) = 0 := by
  unfold resultMemoryMessages
  cases hc : r.extractedContent <;> cases he : r.error <;>
    simp [countState_append, countState_cons, countState_nil, Msg.isState] <;>
    split <;> simp [countState_cons, countState_nil, Msg.isState] <;>
    split <;> simp [countState_cons, countState_nil, Msg.isState]

theorem countState_memMsgs (rs : List ActionResult) :
    countState ((rs.map
      (fun r => if r.includeInMemory then resultMemoryMessages r else [])).flatten) = 0 := by
  induction rs with
  | nil => rfl
  | cons r rest ih =>
    cases hr : r.includeInMemory <;>
      simp [hr, countState_append, countState_resultMemoryMessages, countState_nil, ih]

theorem addStateMessageToMemory_spec (ctx : Context) (h : ctx.stateMessageAdded = false) :
    (addStateMessageToMemory ctx).stateMessageAdded = true ∧
    countState (addStateMessageToMemory ctx).messages = countState ctx.messages + 1 ∧
    (addStateMessageToMemory ctx).actionResults = ctx.actionResults.map resetIfIncluded := by
  unfold addStateMessageToMemory
  simp [h, countState_append, countState_memMsgs, countState_cons, countState_nil, Msg.isState]

theorem removeLastStateMessageFromMemory_noop (ctx : Context)
    (h : ctx.stateMessageAdded = false) :
    removeLastStateMessageFromMemory ctx = ctx := by
  unfold removeLastStateMessageFromMemory
  simp [h]

theorem removeLastStateMessageFromMemory_spec (ctx : Context)
    (h : ctx.stateMessageAdded = true) :
    (removeLastStateMessageFromMemory ctx).stateMessageAdded = false ∧
    countState (removeLastStateMessageFromMemory ctx).messages = countState ctx.messages - 1 ∧
    (removeLastStateMessageFromMemory ctx).actionResults = ctx.actionResults := by
  unfold removeLastStateMessageFromMemory
  simp [h, countState_removeLastStateMsg]

/-- C1: for every navigator step outcome — success, caught error, or
cancellation via the paused/stopped flags — the transient state-message
additions and removals balance: when the step concludes the context holds
no residual transient state message (the count of state messages in memory
is back to its value at step start) and `context.stateMessageAdded` is
false. -/

theorem navigator_state_message_pairing (env : NavEnv) (ctx0 : Context)
    (h : ctx0.stateMessageAdded = false) :
    (navigatorExecute env ctx0).ctx.stateMessageAdded = false ∧
    countState (navigatorExecute env ctx0).ctx.messages = countState ctx0.messages := by
  obtain ⟨ha1, ha2, _⟩ := addStateMessageToMemory_spec ctx0 h
  obtain ⟨hr1, hr2, _⟩ := removeLastStateMessageFromMemory_spec (addStateMessageToMemory ctx0) ha1
  rw [ha2] at hr2
  simp only [Nat.add_sub_cancel] at hr2
  -- facts about the context after rollback and model-output commit
  have h3flag : (addModelOutputToMemory
      (removeLastStateMessageFromMemory (addStateMessageToMemory ctx0))).stateMessageAdded = false := by
    simp [addModelOutputToMemory, hr1]
  have h3count : countState (addModelOutputToMemory
      (removeLastStateMessageFromMemory (addStateMessageToMemory ctx0))).messages =
      countState ctx0.messages := by
    simp [addModelOutputToMemory, countState_append, countState_cons, countState_nil,
      Msg.isState, hr2]
  unfold navigatorExecute
  cases h0 : env.flag0 with
  | true => simp [h0, hr1, hr2]
  | false =>
    cases hio : env.invokeOut with
    | error e =>
      cases hk : e.kind <;> simp [h0, hio, hk, hr1, hr2]
    | ok resp =>
      cases h1f : env.flag1 with
      | true => simp [h0, hio, h1f, hr1, hr2]
      | false =>
        cases hthr : (doMultiAction env.flagStart env.flagEnd env.cached resp).thrown with
        | some e =>
          have h4 := removeLastStateMessageFromMemory_noop (addModelOutputToMemory
            (removeLastStateMessageFromMemory (addStateMessageToMemory ctx0))) h3flag
          cases hk : e.kind <;>
            simp [h0, hio, h1f, hthr, hk, h4, h3flag, h3count]
        | none =>
          cases h2f : env.flag2 with
          | true =>
            simp [h0, hio, h1f, hthr, h2f, h3flag]
            rw [removeLastStateMessageFromMemory_noop _ rfl]
            exact ⟨rfl, h3count⟩
          | false =>
            simp [h0, hio, h1f, hthr, h2f, h3flag, h3count]

/-- Witness for C1: a concrete successful step with one model action. -/

theorem navigator_state_message_pairing_witness :
    c1Ctx.stateMessageAdded = false ∧
    ((navigatorExecute c1Env c1Ctx).ctx.stateMessageAdded = false ∧
      countState (navigatorExecute c1Env c1Ctx).ctx.messages = countState c1Ctx.messages) :=
  ⟨rfl, navigator_state_message_pairing c1Env c1Ctx rfl⟩

/-! ## Counting lemmas for the per-step error budget -/

theorem errResCount_append (a b : List ActionResult) :
    errResCount (a ++ b) = errResCount a + errResCount b := by
  simp [errResCount, List.filter_append]

theorem errResCount_errResult (m : String) : errResCount [errResult m] = 1 := rfl

theorem errResCount_infoResult (i total : Nat) : errResCount [infoResult i total] = 0 := rfl

theorem errResCount_single_ok (r : ActionResult) (h : r.error = none) :
    errResCount [r] = 0 := by
  simp [errResCount, List.filter_cons, h]

theorem actFailCount_append (a b : List Event) :
    actFailCount (a ++ b) = actFailCount a + actFailCount b := by
  simp [actFailCount, List.filter_append]

theorem actFailCount_actFail (m : String) : actFailCount [Event.actFail m] = 1 := rfl

theorem loopBudgetInv_terminal_none (rs : List ActionResult) (evs : List Event) (calls : Nat)
    (h1 : actFailCount evs ≤ 3) (h2 : errResCount rs = actFailCount evs) :
    loopBudgetInv ⟨rs, evs, calls, none⟩ := by
  unfold loopBudgetInv
  refine ⟨fun _ => ⟨h1, h2⟩, fun e he => ?_, fun e he => ?_⟩ <;> exact absurd he (by simp)

theorem loopBudgetInv_terminal_url (rs : List ActionResult) (evs : List Event) (calls : Nat)
    (m : String) (h1 : actFailCount evs ≤ 3) (h2 : errResCount rs = actFailCount evs) :
    loopBudgetInv ⟨rs, evs, calls, some ⟨ErrKind.urlNotAllowed, m⟩⟩ := by
  unfold loopBudgetInv
  refine ⟨fun he => absurd he (by simp), fun e _ _ => ⟨h1, h2⟩, fun e he hk => ?_⟩
  have he2 : e = ⟨ErrKind.urlNotAllowed, m⟩ := by simpa using he.symm
  rw [he2] at hk
  exact absurd rfl hk

theorem loopBudgetInv_terminal_tooMany (rs : List ActionResult) (evs : List Event)
    (calls : Nat) (m : String)
    (h2 : actFailCount evs + 1 = 4) (h3 : errResCount rs = 3) :
    loopBudgetInv ⟨rs, evs ++ [Event.actFail m], calls, some ⟨ErrKind.generic, tooManyErrorsMsg⟩⟩ := by
  unfold loopBudgetInv
  refine ⟨fun he => absurd he (by simp), fun e he hk => ?_, fun e he _ => ?_⟩
  · have he2 : e = ⟨ErrKind.generic, tooManyErrorsMsg⟩ := by simpa using he.symm
    rw [he2] at hk
    exact absurd hk (by simp)
  · have he2 : e = ⟨ErrKind.generic, tooManyErrorsMsg⟩ := by simpa using he.symm
    subst he2
    refine ⟨rfl, ?_, h3, ⟨m, ?_⟩⟩
    · show actFailCount (evs ++ [Event.actFail m]) = 4
      rw [actFailCount_append, actFailCount_actFail]
      omega
    · exact List.getLast?_concat _

theorem actionLoop_budget_invariant (flagStart flagEnd : Nat → Bool) (cached : List String)
    (total : Nat) (specs : List ActionSpec) :
    ∀ (i c : Nat) (rs : List ActionResult) (evs : List Event) (calls : Nat),
      okErrFree specs = true → c ≤ 3 → errResCount rs = c → actFailCount evs = c →
      loopBudgetInv (actionLoop flagStart flagEnd cached total specs i c rs evs calls) := by
  induction specs with
  | nil =>
    intro i c rs evs calls _hok hc hrs hevs
    simp only [actionLoop]
    exact loopBudgetInv_terminal_none _ _ _ (by omega) (by omega)
  | cons spec rest ih =>
    intro i c rs evs calls hok hc hrs hevs
    have hok2 : outcomeErrFree spec.outcome = true ∧ okErrFree rest = true := by
      simpa [okErrFree, List.all_cons, Bool.and_eq_true] using hok
    simp only [actionLoop]
    cases hf : flagStart i with
    | true =>
      rw [if_pos rfl]
      exact loopBudgetInv_terminal_none _ _ _ (by omega) (by omega)
    | false =>
      rw [if_neg (by decide : ¬(false = true))]
      cases hreg : spec.registered with
      | false =>
        rw [if_pos rfl]
        by_cases h3 : c + 1 > 3
        · rw [if_pos h3]
          exact loopBudgetInv_terminal_tooMany _ _ _ _ (by omega) (by omega)
        · rw [if_neg h3]
          exact ih (i + 1) (c + 1) _ _ calls hok2.2 (by omega)
            (by rw [errResCount_append, errResCount_errResult, hrs])
            (by rw [actFailCount_append, actFailCount_actFail, hevs])
      | true =>
        rw [if_neg (by decide : ¬(true = false))]
        by_cases hd : 0 < i ∧ spec.hasIndexArg = true ∧ subsetOf spec.recomputed cached = false
        · rw [if_pos hd]
          exact loopBudgetInv_terminal_none _ _ _ (by omega)
            (by rw [errResCount_append, errResCount_infoResult]; omega)
        · rw [if_neg hd]
          cases ho : spec.outcome with
          | ok r =>
            have hr : r.error = none := by
              have h5 := hok2.1
              rw [ho] at h5
              simpa [outcomeErrFree, Option.isNone_iff_eq_none] using h5
            dsimp only
            cases hfe : flagEnd i with
            | true =>
              rw [if_pos rfl]
              exact loopBudgetInv_terminal_none _ _ _ (by omega)
                (by rw [errResCount_append, errResCount_single_ok r hr]; omega)
            | false =>
              rw [if_neg (by decide : ¬(false = true))]
              exact ih (i + 1) c _ _ (calls + 1) hok2.2 hc
                (by rw [errResCount_append, errResCount_single_ok r hr]; omega) hevs
          | urlNotAllowed m =>
            dsimp only
            exact loopBudgetInv_terminal_url _ _ _ _ (by omega) (by omega)
          | fail m =>
            dsimp only
            by_cases h3 : c + 1 > 3
            · rw [if_pos h3]
              exact loopBudgetInv_terminal_tooMany _ _ _ _ (by omega) (by omega)
            · rw [if_neg h3]
              exact ih (i + 1) (c + 1) _ _ (calls + 1) hok2.2 (by omega)
                (by rw [errResCount_append, errResCount_errResult, hrs])
                (by rw [actFailCount_append, actFailCount_actFail, hevs])

/-- C2: in `doMultiAction`, each per-action error is recorded as a
non-fatal error-bearing `ActionResult` and counted (on a completed run the
number of error results equals the number of ACT_FAIL emissions); a run
never completes with more than 3 errors, the fatal
`Too many errors in actions` failure is raised exactly at the fourth
cumulative error (aborting the remaining actions), and a step with only 3
errors does not raise it. -/

theorem doMultiAction_error_budget (flagStart flagEnd : Nat → Bool) (cached : List String)
    (resp : NavModelOutput) (hok : okErrFree (resp.action.filterMap id) = true) :
    ((doMultiAction flagStart flagEnd cached resp).thrown = none →
      actFailCount (doMultiAction flagStart flagEnd cached resp).events ≤ 3 ∧
      errResCount (doMultiAction flagStart flagEnd cached resp).results =
        actFailCount (doMultiAction flagStart flagEnd cached resp).events) ∧
    ((doMultiAction flagStart flagEnd cached resp).thrown =
        some ⟨ErrKind.generic, tooManyErrorsMsg⟩ →
      actFailCount (doMultiAction flagStart flagEnd cached resp).events = 4 ∧
      errResCount (doMultiAction flagStart flagEnd cached resp).results = 3) ∧
    (∀ e, (doMultiAction flagStart flagEnd cached resp).thrown = some e →
      e.kind = ErrKind.urlNotAllowed →
      actFailCount (doMultiAction flagStart flagEnd cached resp).events ≤ 3) := by
  have h := actionLoop_budget_invariant flagStart flagEnd cached
    (resp.action.filterMap id).length (resp.action.filterMap id) 0 0 [] [] 0 hok
    (by omega) rfl rfl
  unfold loopBudgetInv at h
  exact ⟨fun ht => h.1 ht,
    fun ht => ⟨(h.2.2 _ ht (by decide)).2.1, (h.2.2 _ ht (by decide)).2.2.1⟩,
    fun e ht hk => (h.2.1 e ht hk).1⟩

/-- Witness for C2: a 4-error step raises the fatal budget failure with 3
recorded error results; a 3-error step completes. -/

theorem doMultiAction_error_budget_witness :
    (okErrFree (c2Resp4.action.filterMap id) = true ∧
      (doMultiAction (fun _ => false) (fun _ => false) [] c2Resp4).thrown =
        some ⟨ErrKind.generic, tooManyErrorsMsg⟩ ∧
      actFailCount (doMultiAction (fun _ => false) (fun _ => false) [] c2Resp4).events = 4 ∧
      errResCount (doMultiAction (fun _ => false) (fun _ => false) [] c2Resp4).results = 3) ∧
    (okErrFree (c2Resp3.action.filterMap id) = true ∧
      (doMultiAction (fun _ => false) (fun _ => false) [] c2Resp3).thrown = none ∧
      actFailCount (doMultiAction (fun _ => false) (fun _ => false) [] c2Resp3).events ≤ 3 ∧
      errResCount (doMultiAction (fun _ => false) (fun _ => false) [] c2Resp3).results =
        actFailCount (doMultiAction (fun _ => false) (fun _ => false) [] c2Resp3).events) :=
  ⟨⟨by decide, by decide,
      (doMultiAction_error_budget (fun _ => false) (fun _ => false) [] c2Resp4
        (by decide)).2.1 (by decide)⟩,
    ⟨by decide, by decide,
      (doMultiAction_error_budget (fun _ => false) (fun _ => false) [] c2Resp3
        (by decide)).1 (by decide)⟩⟩

/-- Counterexample for C9: when the error budget is exceeded, the thrown
exception carries the fixed message `Too many errors in actions`; the
error message `boom4` of the fourth action appears in the last emitted ACT_FAIL
event but not in the thrown exception, so the claim that the fourth error
message appears in the thrown exception is false. -/

theorem doMultiAction_fatal_moment_counterexample :
    (doMultiAction (fun _ => false) (fun _ => false) [] c9Resp).thrown =
      some ⟨ErrKind.generic, "Too many errors in actions"⟩ ∧
    (doMultiAction (fun _ => false) (fun _ => false) [] c9Resp).events.getLast? =
      some (Event.actFail "boom4") ∧
    errResCount (doMultiAction (fun _ => false) (fun _ => false) [] c9Resp).results = 3 ∧
    "Too many errors in actions" ≠ "boom4" := by
  refine ⟨by decide, by decide, by decide, by decide⟩

/-- C9 (amended): when the per-step error budget is exceeded the fatal
exception is thrown before the result of the budget-exceeding action is pushed:
at that moment the accumulated results hold exactly 3 error-bearing
entries, exactly 4 ACT_FAIL events were emitted (the last one carrying the
fourth error message), and the thrown exception carries the fixed message
`Too many errors in actions` rather than the error of the fourth action
message. -/

theorem doMultiAction_fatal_moment (flagStart flagEnd : Nat → Bool) (cached : List String)
    (resp : NavModelOutput) (hok : okErrFree (resp.action.filterMap id) = true)
    (e : Err) (ht : (doMultiAction flagStart flagEnd cached resp).thrown = some e)
    (hk : e.kind ≠ ErrKind.urlNotAllowed) :
    e.msg = tooManyErrorsMsg ∧
    errResCount (doMultiAction flagStart flagEnd cached resp).results = 3 ∧
    actFailCount (doMultiAction flagStart flagEnd cached resp).events = 4 ∧
    ∃ m, (doMultiAction flagStart flagEnd cached resp).events.getLast? =
      some (Event.actFail m) := by
  have h := actionLoop_budget_invariant flagStart flagEnd cached
    (resp.action.filterMap id).length (resp.action.filterMap id) 0 0 [] [] 0 hok
    (by omega) rfl rfl
  unfold loopBudgetInv at h
  obtain ⟨he, h4, h3, hlast⟩ := h.2.2 e ht hk
  exact ⟨by rw [he], h3, h4, hlast⟩

/-- Witness for C9: the 4-error step of `c9Resp`. -/

theorem doMultiAction_fatal_moment_witness :
    okErrFree (c9Resp.action.filterMap id) = true ∧
    (doMultiAction (fun _ => false) (fun _ => false) [] c9Resp).thrown =
      some ⟨ErrKind.generic, tooManyErrorsMsg⟩ ∧
    ((⟨ErrKind.generic, tooManyErrorsMsg⟩ : Err).msg = tooManyErrorsMsg ∧
      errResCount (doMultiAction (fun _ => false) (fun _ => false) [] c9Resp).results = 3 ∧
      actFailCount (doMultiAction (fun _ => false) (fun _ => false) [] c9Resp).events = 4 ∧
      ∃ m, (doMultiAction (fun _ => false) (fun _ => false) [] c9Resp).events.getLast? =
        some (Event.actFail m)) :=
  ⟨by decide, by decide,
    doMultiAction_fatal_moment (fun _ => false) (fun _ => false) [] c9Resp (by decide)
      ⟨ErrKind.generic, tooManyErrorsMsg⟩ (by decide) (by decide)⟩

/-- C3: when the loop reaches an action at index `i > 0` whose resolved
action declares a target-element index argument and the recomputed branch
path hash set is not a subset of the pre-step one, the loop stops: no
action at or after index `i` executes (the output is exactly the results
accumulated so far plus the informational drift result, the call count is
unchanged, nothing is thrown), and the appended result is informational —
`extractedContent` set to the drift message, no error field. -/

theorem actionLoop_drift_stops (flagStart flagEnd : Nat → Bool) (cached : List String)
    (total : Nat) (spec : ActionSpec) (rest : List ActionSpec) (i c : Nat)
    (rs : List ActionResult) (evs : List Event) (calls : Nat)
    (hflag : flagStart i = false) (hreg : spec.registered = true) (hi : 0 < i)
    (hidx : spec.hasIndexArg = true) (hdrift : subsetOf spec.recomputed cached = false) :
    actionLoop flagStart flagEnd cached total (spec :: rest) i c rs evs calls =
      ⟨rs ++ [infoResult i total], evs, calls, none⟩ ∧
    (infoResult i total).extractedContent = some (infoMsg i total) ∧
    (infoResult i total).error = none := by
  refine ⟨?_, rfl, rfl⟩
  simp only [actionLoop]
  rw [hflag, if_neg (by decide : ¬(false = true))]
  rw [hreg, if_neg (by decide : ¬(true = false))]
  rw [if_pos ⟨hi, hidx, hdrift⟩]

/-- Witness for C3: a drifting action at index 1 of a 3-action batch. -/

theorem actionLoop_drift_stops_witness :
    ((fun _ : Nat => false) 1 = false ∧ c3Drift.registered = true ∧ 0 < 1 ∧
      c3Drift.hasIndexArg = true ∧ subsetOf c3Drift.recomputed ["h1"] = false) ∧
    (actionLoop (fun _ => false) (fun _ => false) ["h1"] 3 [c3Drift, c3Tail] 1 0
        [{ extractedContent := some "first" }] [] 1 =
      ⟨[{ extractedContent := some "first" }] ++ [infoResult 1 3], [], 1, none⟩ ∧
    (infoResult 1 3).extractedContent = some (infoMsg 1 3) ∧
    (infoResult 1 3).error = none) :=
  ⟨⟨rfl, rfl, by decide, rfl, by decide⟩,
    actionLoop_drift_stops (fun _ => false) (fun _ => false) ["h1"] 3 c3Drift [c3Tail] 1 0
      [{ extractedContent := some "first" }] [] 1 rfl rfl (by decide) rfl (by decide)⟩

/-- C4: a disallowed-navigation error is always fatal.  First part: when an
executed action throws `URLNotAllowedError`, the loop re-throws it at once —
no ACT_FAIL event is emitted (the error counter is bypassed), no error
result is recorded, and no further action of the batch executes.  Second
part: a navigator step whose `doMultiAction` throws `URLNotAllowedError`
propagates it out of `execute` as a thrown error instead of converting it
into a non-fatal `AgentOutput.error`. -/

theorem urlNotAllowed_always_fatal :
    (∀ (flagStart flagEnd : Nat → Bool) (cached : List String) (total : Nat)
        (spec : ActionSpec) (rest : List ActionSpec) (i c : Nat)
        (rs : List ActionResult) (evs : List Event) (calls : Nat) (m : String),
      flagStart i = false → spec.registered = true →
      spec.outcome = ActionOutcome.urlNotAllowed m →
      ¬(0 < i ∧ spec.hasIndexArg = true ∧ subsetOf spec.recomputed cached = false) →
      actionLoop flagStart flagEnd cached total (spec :: rest) i c rs evs calls =
        ⟨rs, evs, calls + 1, some ⟨ErrKind.urlNotAllowed, m⟩⟩) ∧
    (∀ (env : NavEnv) (ctx0 : Context) (resp : NavModelOutput) (m : String),
      env.invokeOut = Except.ok resp → env.flag0 = false → env.flag1 = false →
      (doMultiAction env.flagStart env.flagEnd env.cached resp).thrown =
        some ⟨ErrKind.urlNotAllowed, m⟩ →
      (navigatorExecute env ctx0).result = StepReturn.threw ⟨ErrKind.urlNotAllowed, m⟩) := by
  constructor
  · intro flagStart flagEnd cached total spec rest i c rs evs calls m hflag hreg ho hnd
    simp only [actionLoop]
    rw [hflag, if_neg (by decide : ¬(false = true))]
    rw [hreg, if_neg (by decide : ¬(true = false))]
    rw [if_neg hnd, ho]
  · intro env ctx0 resp m hio h0 h1 ht
    unfold navigatorExecute
    rw [h0, if_neg (by decide : ¬(false = true)), hio]
    dsimp only
    rw [h1, if_neg (by decide : ¬(false = true))]
    rw [ht]

/-- Witness for C4: a one-action batch that raises the disallowed
navigation error, run both through the loop and through the full step. -/

theorem urlNotAllowed_always_fatal_witness :
    ((fun _ : Nat => false) 0 = false ∧ c4Url.registered = true ∧
      c4Url.outcome = ActionOutcome.urlNotAllowed "URL not allowed: evil.example" ∧
      ¬(0 < 0 ∧ c4Url.hasIndexArg = true ∧ subsetOf c4Url.recomputed [] = false) ∧
      actionLoop (fun _ => false) (fun _ => false) [] 1 [c4Url] 0 0 [] [] 0 =
        ⟨[], [], 0 + 1, some ⟨ErrKind.urlNotAllowed, "URL not allowed: evil.example"⟩⟩) ∧
    (c4Env.invokeOut = Except.ok ⟨[some c4Url]⟩ ∧ c4Env.flag0 = false ∧
      c4Env.flag1 = false ∧
      (doMultiAction c4Env.flagStart c4Env.flagEnd c4Env.cached ⟨[some c4Url]⟩).thrown =
        some ⟨ErrKind.urlNotAllowed, "URL not allowed: evil.example"⟩ ∧
      (navigatorExecute c4Env
          { stateMessageAdded := false, actionResults := [], messages := [] }).result =
        StepReturn.threw ⟨ErrKind.urlNotAllowed, "URL not allowed: evil.example"⟩) :=
  ⟨⟨rfl, rfl, rfl, by decide,
      urlNotAllowed_always_fatal.1 (fun _ => false) (fun _ => false) [] 1 c4Url [] 0 0
        [] [] 0 "URL not allowed: evil.example" rfl rfl rfl (by decide)⟩,
    ⟨rfl, rfl, rfl, by decide,
      urlNotAllowed_always_fatal.2 c4Env
        { stateMessageAdded := false, actionResults := [], messages := [] }
        ⟨[some c4Url]⟩ "URL not allowed: evil.example" rfl rfl rfl (by decide)⟩⟩

/-- Case shape of a navigator step outcome: either the step was cancelled
and returns an output with neither field, or it was not cancelled and
either threw, or returned an error-only output, or returned a result-only
output. -/

theorem navigatorExecute_shape (env : NavEnv) (ctx0 : Context) :
    ((navigatorExecute env ctx0).cancelled = true ∧
      (navigatorExecute env ctx0).result = StepReturn.returned ⟨"navigator", none, none⟩) ∨
    ((navigatorExecute env ctx0).cancelled = false ∧
      ((∃ e, (navigatorExecute env ctx0).result = StepReturn.threw e) ∨
        (∃ m, (navigatorExecute env ctx0).result =
          StepReturn.returned ⟨"navigator", none, some m⟩) ∨
        (∃ d, (navigatorExecute env ctx0).result =
          StepReturn.returned ⟨"navigator", some d, none⟩))) := by
  unfold navigatorExecute
  dsimp only
  cases h0 : env.flag0 with
  | true => exact Or.inl ⟨rfl, rfl⟩
  | false =>
    cases hio : env.invokeOut with
    | error e =>
      dsimp only
      cases hk : e.kind
      · exact Or.inr ⟨rfl, Or.inl ⟨_, rfl⟩⟩
      · exact Or.inr ⟨rfl, Or.inl ⟨_, rfl⟩⟩
      · exact Or.inr ⟨rfl, Or.inl ⟨_, rfl⟩⟩
      · exact Or.inr ⟨rfl, Or.inl ⟨_, rfl⟩⟩
      · exact Or.inr ⟨rfl, Or.inr (Or.inl ⟨e.msg, rfl⟩)⟩
    | ok resp =>
      dsimp only
      cases h1f : env.flag1 with
      | true => exact Or.inl ⟨rfl, rfl⟩
      | false =>
        cases hthr : (doMultiAction env.flagStart env.flagEnd env.cached resp).thrown with
        | some e =>
          dsimp only
          cases hk : e.kind
          · exact Or.inr ⟨rfl, Or.inl ⟨_, rfl⟩⟩
          · exact Or.inr ⟨rfl, Or.inl ⟨_, rfl⟩⟩
          · exact Or.inr ⟨rfl, Or.inl ⟨_, rfl⟩⟩
          · exact Or.inr ⟨rfl, Or.inl ⟨_, rfl⟩⟩
          · exact Or.inr ⟨rfl, Or.inr (Or.inl ⟨e.msg, rfl⟩)⟩
        | none =>
          cases h2f : env.flag2 with
          | true => exact Or.inl ⟨rfl, rfl⟩
          | false => exact Or.inr ⟨rfl, Or.inr (Or.inr ⟨_, rfl⟩)⟩

/-- Counterexample for C5: a navigator step cancelled via the
paused/stopped flags returns an `AgentOutput` holding neither `result` nor
`error`, so it is not true that every returned step output holds exactly
one of the two fields. -/

theorem agentOutput_exactly_one_counterexample :
    (navigatorExecute c5CancelEnv c5Ctx).result =
      StepReturn.returned ⟨"navigator", none, none⟩ ∧
    exactlyOneB (⟨"navigator", none, none⟩ : AgentOutput NavigatorResult) = false :=
  ⟨rfl, rfl⟩

/-- C5 (amended): every `AgentOutput` returned by a planner or validator
step holds exactly one of `result` and `error`; a navigator step holds
exactly one of them whenever the step was not cancelled, while a step
cancelled via the paused/stopped flags returns an output with neither field
present. -/

theorem agentOutput_exactly_one_amended :
    (∀ (io : Except Err (Option PlannerOutput)) (out : AgentOutput PlannerOutput),
      (plannerExecute io).1 = StepReturn.returned out → exactlyOneB out = true) ∧
    (∀ (io : Except Err (Option ValidatorOutput)) (ctx : Context)
        (out : AgentOutput ValidatorOutput),
      (validatorExecute io ctx).1 = StepReturn.returned out → exactlyOneB out = true) ∧
    (∀ (env : NavEnv) (ctx0 : Context) (out : AgentOutput NavigatorResult),
      (navigatorExecute env ctx0).result = StepReturn.returned out →
      (navigatorExecute env ctx0).cancelled = false → exactlyOneB out = true) ∧
    (∀ (env : NavEnv) (ctx0 : Context) (out : AgentOutput NavigatorResult),
      (navigatorExecute env ctx0).result = StepReturn.returned out →
      (navigatorExecute env ctx0).cancelled = true →
      out.result = none ∧ out.error = none) := by
  refine ⟨?_, ?_, ?_, ?_⟩
  · intro io out he
    cases io with
    | ok oo =>
      cases oo with
      | some o =>
        simp only [plannerExecute, StepReturn.returned.injEq] at he
        rw [← he]
        rfl
      | none =>
        simp only [plannerExecute, StepReturn.returned.injEq] at he
        rw [← he]
        rfl
    | error e =>
      cases hk : e.kind <;> simp only [plannerExecute, hk, StepReturn.returned.injEq] at he <;>
        first
          | (rw [← he]; rfl)
          | cases he
  · intro io ctx out he
    cases io with
    | ok oo =>
      cases oo with
      | some o =>
        cases hv : o.is_valid <;> simp [validatorExecute, hv] at he <;> (rw [← he]; rfl)
      | none =>
        simp only [validatorExecute, StepReturn.returned.injEq] at he
        rw [← he]
        rfl
    | error e =>
      cases hk : e.kind <;> simp only [validatorExecute, hk, StepReturn.returned.injEq] at he <;>
        first
          | (rw [← he]; rfl)
          | cases he
  · intro env ctx0 out he hc
    rcases navigatorExecute_shape env ctx0 with ⟨hc2, _⟩ | ⟨_, hsh⟩
    · rw [hc] at hc2
      cases hc2
    · rcases hsh with ⟨e, hr⟩ | ⟨m, hr⟩ | ⟨d, hr⟩ <;> rw [he] at hr
      · cases hr
      · injection hr with h2
        rw [h2]
        rfl
      · injection hr with h2
        rw [h2]
        rfl
  · intro env ctx0 out he hc
    rcases navigatorExecute_shape env ctx0 with ⟨_, hr⟩ | ⟨hc2, _⟩
    · rw [he] at hr
      injection hr with h2
      rw [h2]
      exact ⟨rfl, rfl⟩
    · rw [hc] at hc2
      cases hc2

/-- Witness for C5: a successful planner step, a successful validator step,
a successful navigator step, and a cancelled navigator step. -/

theorem agentOutput_exactly_one_amended_witness :
    ((plannerExecute (Except.ok (some c5PO))).1 =
        StepReturn.returned ⟨"planner", some c5PO, none⟩ ∧
      exactlyOneB (⟨"planner", some c5PO, none⟩ : AgentOutput PlannerOutput) = true) ∧
    ((validatorExecute (Except.ok (some c5VO)) c5Ctx).1 =
        StepReturn.returned ⟨"validator", some c5VO, none⟩ ∧
      exactlyOneB (⟨"validator", some c5VO, none⟩ : AgentOutput ValidatorOutput) = true) ∧
    ((navigatorExecute c5OkEnv c5Ctx).result =
        StepReturn.returned ⟨"navigator", some ⟨false⟩, none⟩ ∧
      (navigatorExecute c5OkEnv c5Ctx).cancelled = false ∧
      exactlyOneB (⟨"navigator", some ⟨false⟩, none⟩ : AgentOutput NavigatorResult) = true) ∧
    ((navigatorExecute c5CancelEnv c5Ctx).result =
        StepReturn.returned ⟨"navigator", none, none⟩ ∧
      (navigatorExecute c5CancelEnv c5Ctx).cancelled = true ∧
      (⟨"navigator", none, none⟩ : AgentOutput NavigatorResult).result = none ∧
      (⟨"navigator", none, none⟩ : AgentOutput NavigatorResult).error = none) :=
  ⟨⟨rfl, agentOutput_exactly_one_amended.1 (Except.ok (some c5PO)) _ rfl⟩,
    ⟨rfl, agentOutput_exactly_one_amended.2.1 (Except.ok (some c5VO)) c5Ctx _ rfl⟩,
    ⟨rfl, rfl, agentOutput_exactly_one_amended.2.2.1 c5OkEnv c5Ctx _ rfl rfl⟩,
    ⟨rfl, rfl,
      (agentOutput_exactly_one_amended.2.2.2 c5CancelEnv c5Ctx ⟨"navigator", none, none⟩
        rfl rfl).1,
      (agentOutput_exactly_one_amended.2.2.2 c5CancelEnv c5Ctx ⟨"navigator", none, none⟩
        rfl rfl).2⟩⟩

/-- C6: for the boolean-like output fields (`done` and `web_task` of the
planner schema, `is_valid` of the validator schema), a string value is
normalized to a boolean exactly when its lowercase form is `"true"` or
`"false"` — so `"true"`, `"TRUE"` and `"False"` normalize correctly — any
other string makes schema validation fail with `Invalid boolean string`,
and boolean inputs pass through unchanged. -/

theorem boolLike_normalization :
    (∀ b : Bool, parseBoolLike (BoolLike.bool b) = Except.ok b) ∧
    (∀ s : String, parseOk (parseBoolLike (BoolLike.str s)) = true ↔
      (toLowerCase s = "true" ∨ toLowerCase s = "false")) ∧
    (∀ s : String, toLowerCase s = "true" →
      parseBoolLike (BoolLike.str s) = Except.ok true) ∧
    (∀ s : String, toLowerCase s = "false" →
      parseBoolLike (BoolLike.str s) = Except.ok false) ∧
    (∀ s : String, toLowerCase s ≠ "true" → toLowerCase s ≠ "false" →
      parseBoolLike (BoolLike.str s) = Except.error "Invalid boolean string") := by
  refine ⟨fun b => rfl, fun s => ?_, fun s h => ?_, fun s h => ?_, fun s h1 h2 => ?_⟩
  · by_cases h1 : toLowerCase s = "true"
    · simp [parseBoolLike, parseOk, h1]
    · by_cases h2 : toLowerCase s = "false" <;> simp [parseBoolLike, parseOk, h1, h2]
  · simp [parseBoolLike, h]
  · have hne : toLowerCase s ≠ "true" := by
      rw [h]
      decide
    simp [parseBoolLike, h, hne]
  · simp [parseBoolLike, h1, h2]

/-- Witness for C6: `"TRUE"` and `"False"` normalize, `"yes"` fails. -/

theorem boolLike_normalization_witness :
    (toLowerCase "TRUE" = "true" ∧ parseBoolLike (BoolLike.str "TRUE") = Except.ok true) ∧
    (toLowerCase "False" = "false" ∧
      parseBoolLike (BoolLike.str "False") = Except.ok false) ∧
    (toLowerCase "yes" ≠ "true" ∧ toLowerCase "yes" ≠ "false" ∧
      parseBoolLike (BoolLike.str "yes") = Except.error "Invalid boolean string") ∧
    (parseBoolLike (BoolLike.bool true) = Except.ok true ∧
      parseBoolLike (BoolLike.bool false) = Except.ok false) :=
  ⟨⟨by decide, boolLike_normalization.2.2.1 "TRUE" (by decide)⟩,
    ⟨by decide, boolLike_normalization.2.2.2.1 "False" (by decide)⟩,
    ⟨by decide, by decide, boolLike_normalization.2.2.2.2 "yes" (by decide) (by decide)⟩,
    ⟨boolLike_normalization.1 true, boolLike_normalization.1 false⟩⟩

/-- Counterexample for C7: with pause set before model invocation, the step
executes zero actions but the shared action-result buffer is not left
exactly as it was — `addStateMessageToMemory` (which runs before the pause
check) resets the `includeInMemory` entry to the empty instance. -/

theorem navigator_pause_before_invoke_counterexample :
    (navigatorExecute c7Env c7Ctx).callCount = 0 ∧
    (navigatorExecute c7Env c7Ctx).ctx.actionResults ≠ c7Ctx.actionResults := by
  exact ⟨rfl, by decide⟩

/-- C7 (amended): if the paused/stopped flag is observed at the check
before model invocation, the navigator step executes zero actions, is
cancelled, and does not store any new results in the shared buffer; the
buffer is however not untouched in general: each `includeInMemory` entry
has been reset to the empty instance by the state-message fold that runs
before the pause check. -/

theorem navigator_pause_before_invoke (env : NavEnv) (ctx0 : Context)
    (h0 : env.flag0 = true) (h : ctx0.stateMessageAdded = false) :
    (navigatorExecute env ctx0).callCount = 0 ∧
    (navigatorExecute env ctx0).cancelled = true ∧
    (navigatorExecute env ctx0).ctx.actionResults =
      ctx0.actionResults.map resetIfIncluded := by
  obtain ⟨ha1, _, ha3⟩ := addStateMessageToMemory_spec ctx0 h
  obtain ⟨_, _, hr3⟩ := removeLastStateMessageFromMemory_spec (addStateMessageToMemory ctx0) ha1
  unfold navigatorExecute
  simp [h0, hr3, ha3]

/-- Witness for C7: the concrete paused step of `c7Env` and `c7Ctx`. -/

theorem navigator_pause_before_invoke_witness :
    c7Env.flag0 = true ∧ c7Ctx.stateMessageAdded = false ∧
    ((navigatorExecute c7Env c7Ctx).callCount = 0 ∧
      (navigatorExecute c7Env c7Ctx).cancelled = true ∧
      (navigatorExecute c7Env c7Ctx).ctx.actionResults =
        c7Ctx.actionResults.map resetIfIncluded) :=
  ⟨rfl, rfl, navigator_pause_before_invoke c7Env c7Ctx rfl rfl⟩

/-- The second application of `addStateMessageToMemory` is a no-op: the
guard is already set. -/

theorem addStateMessageToMemory_noop (ctx : Context) (h : ctx.stateMessageAdded = true) :
    addStateMessageToMemory ctx = ctx := by
  unfold addStateMessageToMemory
  simp [h]

/-- C8: after `addStateMessageToMemory` folds an `includeInMemory` action
result into the next state message, that buffer slot holds a fresh empty
`ActionResult`; and a second call of `addStateMessageToMemory` on the
resulting context is the identity (the `stateMessageAdded` guard is set),
so the content or error of each result enters conversational memory at most once
across repeated calls. -/

theorem addStateMessage_consumes_results (ctx : Context) (h : ctx.stateMessageAdded = false) :
    (∀ (i : Nat) (r : ActionResult), ctx.actionResults[i]? = some r →
      r.includeInMemory = true →
      (addStateMessageToMemory ctx).actionResults[i]? = some ActionResult.empty) ∧
    addStateMessageToMemory (addStateMessageToMemory ctx) = addStateMessageToMemory ctx := by
  obtain ⟨ha1, _, ha3⟩ := addStateMessageToMemory_spec ctx h
  constructor
  · intro i r hi hinc
    rw [ha3, List.getElem?_map, hi]
    simp [resetIfIncluded, hinc]
  · exact addStateMessageToMemory_noop _ ha1

/-- Witness for C8: the single `includeInMemory` slot of `c8Ctx` is reset
and the second call is the identity. -/

theorem addStateMessage_consumes_results_witness :
    c8Ctx.stateMessageAdded = false ∧
    c8Ctx.actionResults[0]? =
      some { extractedContent := some "page text", includeInMemory := true } ∧
    ({ extractedContent := some "page text",
        includeInMemory := true } : ActionResult).includeInMemory = true ∧
    (addStateMessageToMemory c8Ctx).actionResults[0]? = some ActionResult.empty ∧
    addStateMessageToMemory (addStateMessageToMemory c8Ctx) = addStateMessageToMemory c8Ctx :=
  ⟨rfl, rfl, rfl,
    (addStateMessage_consumes_results c8Ctx rfl).1 0 _ rfl rfl,
    (addStateMessage_consumes_results c8Ctx rfl).2⟩

/-- C10: `addPrompt` is idempotent on content — if some stored prompt
already has exactly the given content, it returns such a stored prompt and
leaves the stored prompt list and `nextId` unchanged; otherwise it prepends
a new prompt whose id is the old `nextId`, increments `nextId` by one, and
returns the new prompt. -/

theorem addPrompt_spec (st : FavoritesStorage) (title content : String) :
    ((∃ p ∈ st.prompts, p.content = content) →
      (addPrompt st title content).1 = st ∧
      ∃ p ∈ st.prompts, p.content = content ∧ (addPrompt st title content).2 = p) ∧
    ((∀ p ∈ st.prompts, p.content ≠ content) →
      (addPrompt st title content).1.nextId = st.nextId + 1 ∧
      (addPrompt st title content).1.prompts =
        { id := st.nextId, title := title, content := content } :: st.prompts ∧
      (addPrompt st title content).2 =
        { id := st.nextId, title := title, content := content }) := by
  constructor
  · intro hex
    have hsome : (st.prompts.find? (fun p => p.content == content)).isSome := by
      rw [List.find?_isSome]
      obtain ⟨p, hp, hc⟩ := hex
      exact ⟨p, hp, by simp [hc]⟩
    obtain ⟨q, hq⟩ := Option.isSome_iff_exists.mp hsome
    have hmem := List.mem_of_find?_eq_some hq
    have hcq : q.content = content := by
      have hpq := List.find?_some hq
      simpa using hpq
    unfold addPrompt
    rw [hq]
    exact ⟨rfl, ⟨q, hmem, hcq, rfl⟩⟩
  · intro hall
    have hnone : st.prompts.find? (fun p => p.content == content) = none := by
      rw [List.find?_eq_none]
      intro p hp
      simp [hall p hp]
    unfold addPrompt
    rw [hnone]
    exact ⟨rfl, rfl, rfl⟩

/-- Witness for C10: adding content `"c"` (already stored) is the identity
and returns the stored prompt; adding content `"zzz"` (not stored) prepends
a prompt with id 5 and bumps `nextId` to 6. -/

theorem addPrompt_spec_witness :
    ((∃ p ∈ c10St.prompts, p.content = "c") ∧
      ((addPrompt c10St "t2" "c").1 = c10St ∧
        ∃ p ∈ c10St.prompts, p.content = "c" ∧ (addPrompt c10St "t2" "c").2 = p)) ∧
    ((∀ p ∈ c10St.prompts, p.content ≠ "zzz") ∧
      ((addPrompt c10St "t2" "zzz").1.nextId = c10St.nextId + 1 ∧
        (addPrompt c10St "t2" "zzz").1.prompts =
          { id := c10St.nextId, title := "t2", content := "zzz" } :: c10St.prompts ∧
        (addPrompt c10St "t2" "zzz").2 =
          { id := c10St.nextId, title := "t2", content := "zzz" })) :=
  ⟨⟨by decide, (addPrompt_spec c10St "t2" "c").1 (by decide)⟩,
    ⟨by decide, (addPrompt_spec c10St "t2" "zzz").2 (by decide)⟩⟩

end AlphasineAssistant
